import Mathlib

/-!
Shallow embedding of `Code/Util/CubemapFilter.py` (RenderPipeline).

The Python class `CubemapFilter` is glue code over a host 3D engine: it
allocates four cube-mapped textures, builds a chain of render targets that
downsample/denoise a specular cubemap, builds two render targets for the
diffuse irradiance cubemap, and attaches shaders.  We model the module as a
pure state machine: textures and render targets are records, every call the
module issues to the host engine is additionally recorded in an explicit
`ApiEvent` trace.  Python integers are modelled as `Int` (Python `//` is
floor division, `Int.fdiv`); the mip counter, which starts at 0 and is only
incremented, is modelled as `Nat`.
-/

/-- Panda3D texture component types (only the constants this module touches,
plus one other constructor so the type is not degenerate). -/
inductive TexComponentType where
  | T_float
  | T_unsigned_byte
deriving DecidableEq, Repr

/-- Panda3D texture formats (only the constants this module touches, plus one
other constructor so the type is not degenerate). -/
inductive TexFormat where
  | F_r11_g11_b10
  | F_rgba8
deriving DecidableEq, Repr

/-- Panda3D texture filter modes used by this module. -/
inductive TexFilter where
  | FT_linear
  | FT_linear_mipmap_linear
  | FT_nearest
deriving DecidableEq, Repr

/-- A cube-mapped texture as produced by the repository's `Image` wrapper.
The `Image` class is external to the analysed file, so the texture is
modelled from the spec as a record of the creation parameters plus the
mutable filter state; filters are unset (`none`) at creation time and only
change through `set_minfilter` / `set_magfilter`. -/
structure ImageTex where
  texName : String
  texSize : Int
  comp : TexComponentType
  fmt : TexFormat
  minfilter : Option TexFilter
  magfilter : Option TexFilter
deriving DecidableEq, Repr

namespace Image

/-- Modelled from the spec: the external image factory (`Image.create_cube`)
allocates a cube-mapped texture with the given name, per-face resolution,
component type and format. -/
def create_cube (name : String) (size : Int) (c : TexComponentType)
    (f : TexFormat) : ImageTex :=
  ⟨name, size, c, f, none, none⟩

end Image

/-- Mirrors `Texture.set_minfilter` on the wrapped texture. -/
def ImageTex.set_minfilter (t : ImageTex) (f : TexFilter) : ImageTex :=
  { t with minfilter := some f }

/-- Mirrors `Texture.set_magfilter` on the wrapped texture. -/
def ImageTex.set_magfilter (t : ImageTex) (f : TexFilter) : ImageTex :=
  { t with magfilter := some f }

/-- A shader input bound on a render target.  `tex` is a plain texture
binding, `texMip` is the 7-argument image binding used for `DestMipmap`
(read flag, write flag, layer, mip level, index), `scalar` is a plain
integer input such as `currentMip` or `cubeSize`. -/
inductive ShaderInput where
  | tex (name : String) (t : ImageTex)
  | texMip (name : String) (t : ImageTex) (readFlag writeFlag : Bool)
      (layer : Int) (level : Int) (index : Int)
  | scalar (name : String) (v : Int)
deriving DecidableEq, Repr

/-- An engine render target.  Modelled from the spec: the stage's
`_create_target` hands out fresh target objects which the module then
configures through the methods below. -/
structure RenderTarget where
  rtName : String
  sizeX : Int
  sizeY : Int
  colorTex : Bool
  prepared : Bool
  inputs : List ShaderInput
  shader : Option String
deriving DecidableEq, Repr, Inhabited

/-- Mirrors `RenderTarget.set_size`. -/
def RenderTarget.set_size (t : RenderTarget) (x y : Int) : RenderTarget :=
  { t with sizeX := x, sizeY := y }

/-- Mirrors `RenderTarget.prepare_offscreen_buffer`. -/
def RenderTarget.prepare_offscreen_buffer (t : RenderTarget) : RenderTarget :=
  { t with prepared := true }

/-- Mirrors `RenderTarget.add_color_texture`. -/
def RenderTarget.add_color_texture (t : RenderTarget) : RenderTarget :=
  { t with colorTex := true }

/-- Mirrors `RenderTarget.set_shader_input`: records the binding. -/
def RenderTarget.set_shader_input (t : RenderTarget) (i : ShaderInput) :
    RenderTarget :=
  { t with inputs := t.inputs ++ [i] }

/-- Mirrors `RenderTarget.set_shader`. -/
def RenderTarget.set_shader (t : RenderTarget) (s : String) : RenderTarget :=
  { t with shader := some s }

/-- The host-engine collaborator (`parent_stage`).  Modelled from the spec:
the stage supplies loaded shader programs (identified here by an opaque
handle string computed from the path) via `_load_shader`. -/
structure Stage where
  load_shader : String → String

/-- Modelled from the spec: `stage._create_target(name)` returns a fresh,
unconfigured engine target object. -/
def Stage.create_target (_st : Stage) (name : String) : RenderTarget :=
  ⟨name, 0, 0, false, false, [], none⟩

/-- One host-API call issued by the module, with its arguments.  Targets and
textures are identified by their names in the events that call methods on
them. -/
inductive ApiEvent where
  | createCube (name : String) (size : Int) (c : TexComponentType)
      (f : TexFormat)
  | setMinfilter (texName : String) (f : TexFilter)
  | setMagfilter (texName : String) (f : TexFilter)
  | createTarget (name : String)
  | setSize (target : String) (x y : Int)
  | prepareOffscreenBuffer (target : String)
  | addColorTexture (target : String)
  | setInput (target : String) (i : ShaderInput)
  | loadShader (path : String)
  | setShader (target : String) (shader : String)
deriving DecidableEq, Repr

/-- Recognises the image-factory allocation events in a trace. -/
def ApiEvent.isCreateCube : ApiEvent → Bool
  | .createCube _ _ _ _ => true
  | _ => false

namespace CubemapFilter

/-- Fixed size for the diffuse cubemap (`DIFFUSE_CUBEMAP_SIZE`). -/
def DIFFUSE_CUBEMAP_SIZE : Int := 10

/-- Fixed size for the prefilter cubemap (`PREFILTER_CUBEMAP_SIZE`). -/
def PREFILTER_CUBEMAP_SIZE : Int := 32

end CubemapFilter

/-- Result of `_make_maps`: the four cubemap textures plus the host-API
calls issued while creating them. -/
structure MapsResult where
  prefilter_map : ImageTex
  diffuse_map : ImageTex
  spec_pref_map : ImageTex
  specular_map : ImageTex
  events : List ApiEvent
deriving Repr

/-- Mirrors `CubemapFilter._make_maps`: creates the four cubemaps, then sets
the filtering modes (the loop over `[diffuse, specular, prefilter]` followed
by the two mipmap min-filter calls). -/
def make_maps (name : String) (size : Int) : MapsResult :=
  let prefilter_map := Image.create_cube (name ++ "IBLPrefDiff")
    CubemapFilter.PREFILTER_CUBEMAP_SIZE .T_float .F_r11_g11_b10
  let diffuse_map := Image.create_cube (name ++ "IBLDiff")
    CubemapFilter.DIFFUSE_CUBEMAP_SIZE .T_float .F_r11_g11_b10
  let spec_pref_map := Image.create_cube (name ++ "IBLPrefSpec")
    size .T_float .F_r11_g11_b10
  let specular_map := Image.create_cube (name ++ "IBLSpec")
    size .T_float .F_r11_g11_b10
  let diffuse_map := (diffuse_map.set_minfilter .FT_linear).set_magfilter .FT_linear
  let specular_map := (specular_map.set_minfilter .FT_linear).set_magfilter .FT_linear
  let prefilter_map := (prefilter_map.set_minfilter .FT_linear).set_magfilter .FT_linear
  let spec_pref_map := spec_pref_map.set_minfilter .FT_linear_mipmap_linear
  let specular_map := specular_map.set_minfilter .FT_linear_mipmap_linear
  ⟨prefilter_map, diffuse_map, spec_pref_map, specular_map,
    [.createCube (name ++ "IBLPrefDiff") CubemapFilter.PREFILTER_CUBEMAP_SIZE
        .T_float .F_r11_g11_b10,
     .createCube (name ++ "IBLDiff") CubemapFilter.DIFFUSE_CUBEMAP_SIZE
        .T_float .F_r11_g11_b10,
     .createCube (name ++ "IBLPrefSpec") size .T_float .F_r11_g11_b10,
     .createCube (name ++ "IBLSpec") size .T_float .F_r11_g11_b10,
     .setMinfilter (name ++ "IBLDiff") .FT_linear,
     .setMagfilter (name ++ "IBLDiff") .FT_linear,
     .setMinfilter (name ++ "IBLSpec") .FT_linear,
     .setMagfilter (name ++ "IBLSpec") .FT_linear,
     .setMinfilter (name ++ "IBLPrefDiff") .FT_linear,
     .setMagfilter (name ++ "IBLPrefDiff") .FT_linear,
     .setMinfilter (name ++ "IBLPrefSpec") .FT_linear_mipmap_linear,
     .setMinfilter (name ++ "IBLSpec") .FT_linear_mipmap_linear]⟩

/-- The state of a `CubemapFilter` object: constructor arguments, the four
maps, and the render targets created by `create()` (absent before). -/
structure CubemapFilter where
  stage : Stage
  name : String
  size : Int
  prefilter_map : ImageTex
  diffuse_map : ImageTex
  spec_pref_map : ImageTex
  specular_map : ImageTex
  targets_spec : List RenderTarget
  targets_spec_filter : List RenderTarget
  diffuse_target : Option RenderTarget
  diff_filter_target : Option RenderTarget

/-- Mirrors `CubemapFilter.__init__`: stores the stage, name and size and
calls `_make_maps`.  Returns the new object and the host-API trace. -/
def CubemapFilter.init (stage : Stage) (name : String) (size : Int) :
    CubemapFilter × List ApiEvent :=
  let m := make_maps name size
  (⟨stage, name, size, m.prefilter_map, m.diffuse_map, m.spec_pref_map,
    m.specular_map, [], [], none, none⟩, m.events)

/-- Mirrors `get_specular_cubemap`. -/
def CubemapFilter.get_specular_cubemap (f : CubemapFilter) : ImageTex :=
  f.specular_map

/-- Mirrors `get_diffuse_cubemap`. -/
def CubemapFilter.get_diffuse_cubemap (f : CubemapFilter) : ImageTex :=
  f.diffuse_map

/-- Mirrors `get_target_cubemap`. -/
def CubemapFilter.get_target_cubemap (f : CubemapFilter) : ImageTex :=
  f.specular_map

/-- Mirrors `get_size`. -/
def CubemapFilter.get_size (f : CubemapFilter) : Int :=
  f.size

/-- Helper for the loop termination argument: floor-halving strictly
decreases the `toNat` of an integer that is at least 2. -/
theorem fdiv_two_toNat_lt (a : Int) (h : 2 ≤ a) :
    (Int.fdiv a 2).toNat < a.toNat := by
  match a, h with
  | .ofNat (n + 1), _ =>
    have hd : Int.fdiv (.ofNat (n + 1)) 2 = Int.ofNat ((n + 1) / 2) := rfl
    rw [hd]
    show (n + 1) / 2 < n + 1
    omega

/-- The `while mipsize >= 2` loop of `_make_specular_targets`, with the
state it reads (stage, base name, the two specular maps) passed explicitly
and the mutated locals `mip`, `mipsize` as parameters.  Returns the
`_targets_spec` list, the `_targets_spec_filter` list, and the host-API
trace.  Python `mipsize // 2` is floor division, `Int.fdiv`. -/
def specular_chain_loop (st : Stage) (name : String)
    (specular_map spec_pref_map : ImageTex) (mip : Nat) (mipsize : Int) :
    List RenderTarget × List RenderTarget × List ApiEvent :=
  if h : 2 ≤ mipsize then
    let mipsize2 := Int.fdiv mipsize 2
    let target := st.create_target (name ++ "SpecIBL-" ++ toString mipsize2)
    let target := target.set_size (mipsize2 * 6) mipsize2
    let target := target.prepare_offscreen_buffer
    let target := if mip = 0 then
        target.set_shader_input (.tex "SourceTex" specular_map)
      else
        target.set_shader_input (.tex "SourceTex" spec_pref_map)
    let target := target.set_shader_input
      (.texMip "DestMipmap" spec_pref_map false true (-1) ((mip : Int) + 1) 0)
    let target := target.set_shader_input (.scalar "currentMip" (mip : Int))
    let target_filter := st.create_target
      (name ++ "SpecIBLFilter-" ++ toString mipsize2)
    let target_filter := target_filter.set_size (mipsize2 * 6) mipsize2
    let target_filter := target_filter.prepare_offscreen_buffer
    let target_filter := target_filter.set_shader_input
      (.scalar "currentMip" ((mip : Int) + 1))
    let target_filter := target_filter.set_shader_input
      (.tex "SourceTex" spec_pref_map)
    let target_filter := target_filter.set_shader_input
      (.texMip "DestMipmap" specular_map false true (-1) ((mip : Int) + 1) 0)
    let rest := specular_chain_loop st name specular_map spec_pref_map
      (mip + 1) mipsize2
    (target :: rest.1, target_filter :: rest.2.1,
      [.createTarget (name ++ "SpecIBL-" ++ toString mipsize2),
       .setSize (name ++ "SpecIBL-" ++ toString mipsize2) (mipsize2 * 6) mipsize2,
       .prepareOffscreenBuffer (name ++ "SpecIBL-" ++ toString mipsize2),
       .setInput (name ++ "SpecIBL-" ++ toString mipsize2)
         (if mip = 0 then .tex "SourceTex" specular_map
          else .tex "SourceTex" spec_pref_map),
       .setInput (name ++ "SpecIBL-" ++ toString mipsize2)
         (.texMip "DestMipmap" spec_pref_map false true (-1) ((mip : Int) + 1) 0),
       .setInput (name ++ "SpecIBL-" ++ toString mipsize2)
         (.scalar "currentMip" (mip : Int)),
       .createTarget (name ++ "SpecIBLFilter-" ++ toString mipsize2),
       .setSize (name ++ "SpecIBLFilter-" ++ toString mipsize2)
         (mipsize2 * 6) mipsize2,
       .prepareOffscreenBuffer (name ++ "SpecIBLFilter-" ++ toString mipsize2),
       .setInput (name ++ "SpecIBLFilter-" ++ toString mipsize2)
         (.scalar "currentMip" ((mip : Int) + 1)),
       .setInput (name ++ "SpecIBLFilter-" ++ toString mipsize2)
         (.tex "SourceTex" spec_pref_map),
       .setInput (name ++ "SpecIBLFilter-" ++ toString mipsize2)
         (.texMip "DestMipmap" specular_map false true (-1) ((mip : Int) + 1) 0)]
      ++ rest.2.2)
  else ([], [], [])
termination_by mipsize.toNat
decreasing_by exact fdiv_two_toNat_lt mipsize h

/-- Mirrors `_make_specular_targets`: runs the loop from `mip = 0`,
`mipsize = self._size` and stores the two target lists. -/
def CubemapFilter.make_specular_targets (f : CubemapFilter) :
    CubemapFilter × List ApiEvent :=
  let r := specular_chain_loop f.stage f.name f.specular_map f.spec_pref_map
    0 f.size
  ({ f with targets_spec := r.1, targets_spec_filter := r.2.1 }, r.2.2)

/-- Mirrors `_make_diffuse_target`: builds the integration target and the
denoise target for the diffuse cubemap. -/
def CubemapFilter.make_diffuse_target (f : CubemapFilter) :
    CubemapFilter × List ApiEvent :=
  let dt := f.stage.create_target (f.name ++ "DiffuseIBL")
  let dt := dt.set_size (CubemapFilter.PREFILTER_CUBEMAP_SIZE * 6)
    CubemapFilter.PREFILTER_CUBEMAP_SIZE
  let dt := dt.add_color_texture
  let dt := dt.prepare_offscreen_buffer
  let dt := dt.set_shader_input (.tex "SourceCubemap" f.specular_map)
  let dt := dt.set_shader_input (.tex "DestCubemap" f.prefilter_map)
  let dt := dt.set_shader_input
    (.scalar "cubeSize" CubemapFilter.PREFILTER_CUBEMAP_SIZE)
  let dft := f.stage.create_target (f.name ++ "DiffPrefIBL")
  let dft := dft.set_size (CubemapFilter.DIFFUSE_CUBEMAP_SIZE * 6)
    CubemapFilter.DIFFUSE_CUBEMAP_SIZE
  let dft := dft.add_color_texture
  let dft := dft.prepare_offscreen_buffer
  let dft := dft.set_shader_input (.tex "SourceCubemap" f.prefilter_map)
  let dft := dft.set_shader_input (.tex "DestCubemap" f.diffuse_map)
  let dft := dft.set_shader_input
    (.scalar "cubeSize" CubemapFilter.DIFFUSE_CUBEMAP_SIZE)
  ({ f with diffuse_target := some dt, diff_filter_target := some dft },
    [.createTarget (f.name ++ "DiffuseIBL"),
     .setSize (f.name ++ "DiffuseIBL") (CubemapFilter.PREFILTER_CUBEMAP_SIZE * 6)
       CubemapFilter.PREFILTER_CUBEMAP_SIZE,
     .addColorTexture (f.name ++ "DiffuseIBL"),
     .prepareOffscreenBuffer (f.name ++ "DiffuseIBL"),
     .setInput (f.name ++ "DiffuseIBL") (.tex "SourceCubemap" f.specular_map),
     .setInput (f.name ++ "DiffuseIBL") (.tex "DestCubemap" f.prefilter_map),
     .setInput (f.name ++ "DiffuseIBL")
       (.scalar "cubeSize" CubemapFilter.PREFILTER_CUBEMAP_SIZE),
     .createTarget (f.name ++ "DiffPrefIBL"),
     .setSize (f.name ++ "DiffPrefIBL") (CubemapFilter.DIFFUSE_CUBEMAP_SIZE * 6)
       CubemapFilter.DIFFUSE_CUBEMAP_SIZE,
     .addColorTexture (f.name ++ "DiffPrefIBL"),
     .prepareOffscreenBuffer (f.name ++ "DiffPrefIBL"),
     .setInput (f.name ++ "DiffPrefIBL") (.tex "SourceCubemap" f.prefilter_map),
     .setInput (f.name ++ "DiffPrefIBL") (.tex "DestCubemap" f.diffuse_map),
     .setInput (f.name ++ "DiffPrefIBL")
       (.scalar "cubeSize" CubemapFilter.DIFFUSE_CUBEMAP_SIZE)])

/-- Mirrors `create`: `_make_specular_targets` then `_make_diffuse_target`. -/
def CubemapFilter.create (f : CubemapFilter) : CubemapFilter × List ApiEvent :=
  let r1 := f.make_specular_targets
  let r2 := r1.1.make_diffuse_target
  (r2.1, r1.2 ++ r2.2)

/-- The `setShader` event on an optional target. -/
def setShaderEvents (o : Option RenderTarget) (sh : String) : List ApiEvent :=
  match o with
  | some t => [.setShader t.rtName sh]
  | none => []

/-- Mirrors `set_shaders`: loads and attaches the two diffuse shaders, then
one shared shader for all specular downsample targets and one shared shader
for all specular filter targets. -/
def CubemapFilter.set_shaders (f : CubemapFilter) :
    CubemapFilter × List ApiEvent :=
  let dsh := f.stage.load_shader "Stages/IBLCubemapDiffuse.frag"
  let dfsh := f.stage.load_shader "Stages/IBLCubemapDiffFilter.frag"
  let mip_shader := f.stage.load_shader "Stages/IBLCubemapSpecular.frag"
  let mip_filter_shader :=
    f.stage.load_shader "Stages/IBLCubemapSpecularFilter.frag"
  ({ f with
      diffuse_target := f.diffuse_target.map (fun t => t.set_shader dsh),
      diff_filter_target := f.diff_filter_target.map (fun t => t.set_shader dfsh),
      targets_spec := f.targets_spec.map (fun t => t.set_shader mip_shader),
      targets_spec_filter :=
        f.targets_spec_filter.map (fun t => t.set_shader mip_filter_shader) },
    [ApiEvent.loadShader "Stages/IBLCubemapDiffuse.frag"]
      ++ setShaderEvents f.diffuse_target dsh
      ++ [ApiEvent.loadShader "Stages/IBLCubemapDiffFilter.frag"]
      ++ setShaderEvents f.diff_filter_target dfsh
      ++ [ApiEvent.loadShader "Stages/IBLCubemapSpecular.frag"]
      ++ f.targets_spec.map (fun t => ApiEvent.setShader t.rtName mip_shader)
      ++ [ApiEvent.loadShader "Stages/IBLCubemapSpecularFilter.frag"]
      ++ f.targets_spec_filter.map
          (fun t => ApiEvent.setShader t.rtName mip_filter_shader))

/-- The full host-API call sequence of a run: `__init__`, then `create()`,
then `set_shaders()`. -/
def full_api_trace (stage : Stage) (name : String) (size : Int) :
    List ApiEvent :=
  let i := CubemapFilter.init stage name size
  let c := i.1.create
  let s := c.1.set_shaders
  i.2 ++ c.2 ++ s.2

/-! ## Closed forms for one iteration of the specular chain loop -/

/-- Closed form of the downsample target built by the loop iteration with
mip counter `mip` and halved size `ms2`. -/
def specDownAt (name : String) (sm spm : ImageTex) (mip : Nat) (ms2 : Int) :
    RenderTarget :=
  ⟨name ++ "SpecIBL-" ++ toString ms2, ms2 * 6, ms2, false, true,
   [if mip = 0 then .tex "SourceTex" sm else .tex "SourceTex" spm,
    .texMip "DestMipmap" spm false true (-1) ((mip : Int) + 1) 0,
    .scalar "currentMip" (mip : Int)], none⟩

/-- Closed form of the filter target built by the loop iteration with mip
counter `mip` and halved size `ms2`. -/
def specFiltAt (name : String) (sm spm : ImageTex) (mip : Nat) (ms2 : Int) :
    RenderTarget :=
  ⟨name ++ "SpecIBLFilter-" ++ toString ms2, ms2 * 6, ms2, false, true,
   [.scalar "currentMip" ((mip : Int) + 1),
    .tex "SourceTex" spm,
    .texMip "DestMipmap" sm false true (-1) ((mip : Int) + 1) 0], none⟩

/-- Closed form of the host-API events issued by the loop iteration with mip
counter `mip` and halved size `ms2`. -/
def specEvtsAt (name : String) (sm spm : ImageTex) (mip : Nat) (ms2 : Int) :
    List ApiEvent :=
  [.createTarget (name ++ "SpecIBL-" ++ toString ms2),
   .setSize (name ++ "SpecIBL-" ++ toString ms2) (ms2 * 6) ms2,
   .prepareOffscreenBuffer (name ++ "SpecIBL-" ++ toString ms2),
   .setInput (name ++ "SpecIBL-" ++ toString ms2)
     (if mip = 0 then .tex "SourceTex" sm else .tex "SourceTex" spm),
   .setInput (name ++ "SpecIBL-" ++ toString ms2)
     (.texMip "DestMipmap" spm false true (-1) ((mip : Int) + 1) 0),
   .setInput (name ++ "SpecIBL-" ++ toString ms2)
     (.scalar "currentMip" (mip : Int)),
   .createTarget (name ++ "SpecIBLFilter-" ++ toString ms2),
   .setSize (name ++ "SpecIBLFilter-" ++ toString ms2) (ms2 * 6) ms2,
   .prepareOffscreenBuffer (name ++ "SpecIBLFilter-" ++ toString ms2),
   .setInput (name ++ "SpecIBLFilter-" ++ toString ms2)
     (.scalar "currentMip" ((mip : Int) + 1)),
   .setInput (name ++ "SpecIBLFilter-" ++ toString ms2)
     (.tex "SourceTex" spm),
   .setInput (name ++ "SpecIBLFilter-" ++ toString ms2)
     (.texMip "DestMipmap" sm false true (-1) ((mip : Int) + 1) 0)]

/-- Unfolding lemma: one iteration of the loop when `2 ≤ mipsize`. -/
theorem specular_chain_loop_step (st : Stage) (n : String)
    (sm spm : ImageTex) (mip : Nat) (ms : Int) (h : 2 ≤ ms) :
    specular_chain_loop st n sm spm mip ms =
      (specDownAt n sm spm mip (Int.fdiv ms 2) ::
         (specular_chain_loop st n sm spm (mip + 1) (Int.fdiv ms 2)).1,
       specFiltAt n sm spm mip (Int.fdiv ms 2) ::
         (specular_chain_loop st n sm spm (mip + 1) (Int.fdiv ms 2)).2.1,
       specEvtsAt n sm spm mip (Int.fdiv ms 2) ++
         (specular_chain_loop st n sm spm (mip + 1) (Int.fdiv ms 2)).2.2) := by
  rw [specular_chain_loop, dif_pos h]
  by_cases hm : mip = 0 <;>
    simp [hm, specDownAt, specFiltAt, specEvtsAt, Stage.create_target,
      RenderTarget.set_size, RenderTarget.prepare_offscreen_buffer,
      RenderTarget.set_shader_input]

/-- Unfolding lemma: the loop stops when `mipsize < 2`. -/
theorem specular_chain_loop_stop (st : Stage) (n : String)
    (sm spm : ImageTex) (mip : Nat) (ms : Int) (h : ¬ 2 ≤ ms) :
    specular_chain_loop st n sm spm mip ms = ([], [], []) := by
  rw [specular_chain_loop, dif_neg h]

/-- Floor division of a nonnegative integer by two, on the `ofNat` view. -/
theorem fdiv_ofNat_two (m : Nat) :
    Int.fdiv (Int.ofNat m) 2 = Int.ofNat (m / 2) := by
  cases m <;> rfl

/-- The `toNat` of a floor-halved integer is the halved `toNat`. -/
theorem toNat_fdiv_two (a : Int) : (Int.fdiv a 2).toNat = a.toNat / 2 := by
  match a with
  | .ofNat m => rw [fdiv_ofNat_two]; rfl
  | .negSucc m =>
    have h : Int.fdiv (Int.negSucc m) 2 = Int.negSucc (m / 2) := rfl
    rw [h]
    simp [Int.toNat]

/-- Floor-halving a power of two. -/
theorem fdiv_pow_two (k : Nat) :
    Int.fdiv ((2 : Int) ^ (k + 1)) 2 = (2 : Int) ^ k := by
  have h1 : ((2 : Int) ^ (k + 1)) = Int.ofNat (2 ^ (k + 1)) := by
    rw [Int.ofNat_eq_natCast]; push_cast; ring
  have h2 : (2 : Nat) ^ (k + 1) / 2 = 2 ^ k := by
    rw [pow_succ]; exact Nat.mul_div_cancel _ (by norm_num)
  rw [h1, fdiv_ofNat_two, h2, Int.ofNat_eq_natCast]
  push_cast
  ring

/-- Powers of two starting at exponent one are at least two. -/
theorem two_le_two_pow_succ (k : Nat) : (2 : Int) ≤ 2 ^ (k + 1) := by
  have h : (2 : Nat) ^ 1 ≤ 2 ^ (k + 1) := Nat.pow_le_pow_right (by norm_num) (by omega)
  exact_mod_cast h

/-- Base-two logarithm of a number below two. -/
theorem log2_of_lt_two (n : Nat) (h : n < 2) : Nat.log2 n = 0 := by
  rw [Nat.log2, if_neg (by omega)]

/-- Recurrence of the base-two logarithm. -/
theorem log2_step (n : Nat) (h : 2 ≤ n) : Nat.log2 n = Nat.log2 (n / 2) + 1 := by
  rw [Nat.log2, if_pos h]

/-- The loop result does not depend on the stage collaborator: the stage is
only consulted to allocate fresh targets by name. -/
theorem specular_chain_loop_stage_eq (st st' : Stage) (n : String)
    (sm spm : ImageTex) :
    ∀ (N mip : Nat) (ms : Int), ms.toNat ≤ N →
      specular_chain_loop st n sm spm mip ms
        = specular_chain_loop st' n sm spm mip ms := by
  intro N
  induction N with
  | zero =>
    intro mip ms hN
    have h2 : ¬ 2 ≤ ms := by omega
    rw [specular_chain_loop_stop st n sm spm mip ms h2,
      specular_chain_loop_stop st' n sm spm mip ms h2]
  | succ N ih =>
    intro mip ms hN
    by_cases h2 : 2 ≤ ms
    · rw [specular_chain_loop_step st n sm spm mip ms h2,
        specular_chain_loop_step st' n sm spm mip ms h2,
        ih (mip + 1) (Int.fdiv ms 2)
          (by have := fdiv_two_toNat_lt ms h2; omega)]
    · rw [specular_chain_loop_stop st n sm spm mip ms h2,
        specular_chain_loop_stop st' n sm spm mip ms h2]

/-- The loop runs exactly `Nat.log2 mipsize.toNat` iterations: both target
lists have that length, for every starting mip counter and every integer
mipsize. -/
theorem specular_chain_loop_length (st : Stage) (n : String)
    (sm spm : ImageTex) :
    ∀ (N mip : Nat) (ms : Int), ms.toNat ≤ N →
      (specular_chain_loop st n sm spm mip ms).1.length = Nat.log2 ms.toNat ∧
      (specular_chain_loop st n sm spm mip ms).2.1.length = Nat.log2 ms.toNat := by
  intro N
  induction N with
  | zero =>
    intro mip ms hN
    have h2 : ¬ 2 ≤ ms := by omega
    rw [specular_chain_loop_stop st n sm spm mip ms h2,
      log2_of_lt_two ms.toNat (by omega)]
    exact ⟨rfl, rfl⟩
  | succ N ih =>
    intro mip ms hN
    by_cases h2 : 2 ≤ ms
    · have hrec := ih (mip + 1) (Int.fdiv ms 2)
        (by have := fdiv_two_toNat_lt ms h2; omega)
      rw [specular_chain_loop_step st n sm spm mip ms h2]
      have hlog : Nat.log2 ms.toNat = Nat.log2 (ms.toNat / 2) + 1 :=
        log2_step ms.toNat (by omega)
      simp only [List.length_cons, hrec.1, hrec.2, toNat_fdiv_two, hlog]
      exact ⟨trivial, trivial⟩
    · rw [specular_chain_loop_stop st n sm spm mip ms h2,
        log2_of_lt_two ms.toNat (by omega)]
      exact ⟨rfl, rfl⟩

/-- Characterisation of the loop on a power-of-two size: starting from mip
counter `mip` and size `2 ^ k`, it produces one downsample/filter pair per
`j < k`, the `j`-th pair having mip counter `mip + j` and halved size
`2 ^ (k - 1 - j)`, together with the corresponding events. -/
theorem specular_chain_loop_pow (st : Stage) (n : String)
    (sm spm : ImageTex) :
    ∀ (k mip : Nat),
      specular_chain_loop st n sm spm mip ((2 : Int) ^ k) =
        ((List.range k).map
            (fun j => specDownAt n sm spm (mip + j) ((2 : Int) ^ (k - 1 - j))),
         (List.range k).map
            (fun j => specFiltAt n sm spm (mip + j) ((2 : Int) ^ (k - 1 - j))),
         ((List.range k).map
            (fun j => specEvtsAt n sm spm (mip + j) ((2 : Int) ^ (k - 1 - j)))).flatten) := by
  intro k
  induction k with
  | zero =>
    intro mip
    rw [pow_zero, specular_chain_loop_stop st n sm spm mip 1 (by norm_num)]
    simp
  | succ k ih =>
    intro mip
    rw [specular_chain_loop_step st n sm spm mip _ (two_le_two_pow_succ k),
      fdiv_pow_two, ih (mip + 1), List.range_succ_eq_map]
    simp only [List.map_cons, List.map_map, List.flatten_cons, Prod.mk.injEq]
    refine ⟨?_, ?_, ?_⟩
    · congr 1
      apply List.map_congr_left
      intro j _
      simp only [Function.comp_apply]
      have h1 : mip + 1 + j = mip + Nat.succ j := by omega
      have h2 : k - 1 - j = k + 1 - 1 - Nat.succ j := by omega
      rw [h1, h2]
    · congr 1
      apply List.map_congr_left
      intro j _
      simp only [Function.comp_apply]
      have h1 : mip + 1 + j = mip + Nat.succ j := by omega
      have h2 : k - 1 - j = k + 1 - 1 - Nat.succ j := by omega
      rw [h1, h2]
    · congr 1
      congr 1
      apply List.map_congr_left
      intro j _
      simp only [Function.comp_apply]
      have h1 : mip + 1 + j = mip + Nat.succ j := by omega
      have h2 : k - 1 - j = k + 1 - 1 - Nat.succ j := by omega
      rw [h1, h2]

/-! ## Derived states -/

/-- The filter state right after `__init__` then `create()`. -/
def created_filter (st : Stage) (n : String) (size : Int) : CubemapFilter :=
  ((CubemapFilter.init st n size).1.create).1

/-- The filter state right after `__init__`, `create()` and `set_shaders()`. -/
def shaded_filter (st : Stage) (n : String) (size : Int) : CubemapFilter :=
  ((created_filter st n size).set_shaders).1

/-- A concrete stage collaborator used to instantiate theorems. -/
def idStage : Stage := ⟨fun p => p⟩

/-! ## Claims -/

/-- Claim C2: the constructor allocates exactly four cube-mapped textures
via the external image factory, each with component type `T_float` and
format `F_r11_g11_b10`: a prefilter map of size 32, a diffuse map of size
10, and a specular-prefilter map and a specular map of the constructor's
size; the diffuse map's size is 10 for every constructor size. -/
theorem init_allocates_four_cubemaps (st : Stage) (n : String) (s : Int) :
    (CubemapFilter.init st n s).2.filter ApiEvent.isCreateCube =
      [.createCube (n ++ "IBLPrefDiff") 32 .T_float .F_r11_g11_b10,
       .createCube (n ++ "IBLDiff") 10 .T_float .F_r11_g11_b10,
       .createCube (n ++ "IBLPrefSpec") s .T_float .F_r11_g11_b10,
       .createCube (n ++ "IBLSpec") s .T_float .F_r11_g11_b10] ∧
    (CubemapFilter.init st n s).1.diffuse_map.texSize = 10 :=
  ⟨rfl, rfl⟩

/-- Claim C4: `create()` builds exactly two diffuse render targets: an
integration target of render size `32*6 × 32` with `SourceCubemap` bound to
the specular map and `DestCubemap` bound to the prefilter map (`cubeSize`
32), and a denoise target of render size `10*6 × 10` with `SourceCubemap`
bound to the prefilter map and `DestCubemap` bound to the diffuse map
(`cubeSize` 10). -/
theorem create_builds_two_diffuse_targets (st : Stage) (n : String) (s : Int) :
    (created_filter st n s).diffuse_target =
      some ⟨n ++ "DiffuseIBL", 32 * 6, 32, true, true,
        [.tex "SourceCubemap" (created_filter st n s).specular_map,
         .tex "DestCubemap" (created_filter st n s).prefilter_map,
         .scalar "cubeSize" 32], none⟩ ∧
    (created_filter st n s).diff_filter_target =
      some ⟨n ++ "DiffPrefIBL", 10 * 6, 10, true, true,
        [.tex "SourceCubemap" (created_filter st n s).prefilter_map,
         .tex "DestCubemap" (created_filter st n s).diffuse_map,
         .scalar "cubeSize" 10], none⟩ :=
  ⟨rfl, rfl⟩

/-- Claim C6: the specular output cubemap is mip-chained, the diffuse one is
not: after the constructor, the specular map and the specular-prefilter map
have min-filter `FT_linear_mipmap_linear`, while the diffuse map keeps plain
`FT_linear` min- and mag-filtering (the specular map's mag-filter is also
plain `FT_linear`). -/
theorem specular_mipmapped_diffuse_not (st : Stage) (n : String) (s : Int) :
    (CubemapFilter.init st n s).1.specular_map.minfilter =
      some .FT_linear_mipmap_linear ∧
    (CubemapFilter.init st n s).1.spec_pref_map.minfilter =
      some .FT_linear_mipmap_linear ∧
    (CubemapFilter.init st n s).1.diffuse_map.minfilter = some .FT_linear ∧
    (CubemapFilter.init st n s).1.diffuse_map.magfilter = some .FT_linear ∧
    (CubemapFilter.init st n s).1.specular_map.magfilter = some .FT_linear :=
  ⟨rfl, rfl, rfl, rfl, rfl⟩

/-- Claim C8: `get_target_cubemap` and `get_specular_cubemap` return the
very same texture, in every filter state whatsoever — hence in particular
after any sequence of `create()` and `set_shaders()` calls. -/
theorem target_cubemap_is_specular_cubemap (f : CubemapFilter) :
    f.get_target_cubemap = f.get_specular_cubemap :=
  rfl

/-- Claim C9: `create()` and `set_shaders()` leave the identity state
unchanged: neither reassigns `name`, `size` or any of the four maps, and
`get_size` after the full `__init__`/`create`/`set_shaders` sequence is
exactly the size passed to the constructor. -/
theorem create_set_shaders_preserve_identity (f : CubemapFilter) (st : Stage)
    (n : String) (s : Int) :
    (f.create).1.name = f.name ∧ (f.create).1.size = f.size ∧
    (f.create).1.prefilter_map = f.prefilter_map ∧
    (f.create).1.diffuse_map = f.diffuse_map ∧
    (f.create).1.spec_pref_map = f.spec_pref_map ∧
    (f.create).1.specular_map = f.specular_map ∧
    (f.set_shaders).1.name = f.name ∧ (f.set_shaders).1.size = f.size ∧
    (f.set_shaders).1.prefilter_map = f.prefilter_map ∧
    (f.set_shaders).1.diffuse_map = f.diffuse_map ∧
    (f.set_shaders).1.spec_pref_map = f.spec_pref_map ∧
    (f.set_shaders).1.specular_map = f.specular_map ∧
    (shaded_filter st n s).get_size = s :=
  ⟨rfl, rfl, rfl, rfl, rfl, rfl, rfl, rfl, rfl, rfl, rfl, rfl, rfl⟩

/-- Claim C10: the specular-chain loop terminates for every integer
constructor size (the function is total), and the number of created pairs is
exactly `Nat.log2` of the size — `floor(log2 size)` iterations for
`size ≥ 2` and zero iterations for `size < 2`, powers of two or not. -/
theorem specular_loop_iteration_count (st : Stage) (n : String)
    (sm spm : ImageTex) (size : Int) :
    (specular_chain_loop st n sm spm 0 size).1.length = Nat.log2 size.toNat ∧
    (specular_chain_loop st n sm spm 0 size).2.1.length = Nat.log2 size.toNat ∧
    (created_filter st n size).targets_spec.length = Nat.log2 size.toNat ∧
    (created_filter st n size).targets_spec_filter.length = Nat.log2 size.toNat := by
  have h := specular_chain_loop_length st n sm spm size.toNat 0 size le_rfl
  have h2 := specular_chain_loop_length st n (make_maps n size).specular_map
    (make_maps n size).spec_pref_map size.toNat 0 size le_rfl
  exact ⟨h.1, h.2, h2.1, h2.2⟩

/-- Element extraction for the created specular downsample chain on a
power-of-two size. -/
theorem created_targets_spec_getD (st : Stage) (n : String) (k j : Nat)
    (hj : j < k) :
    (created_filter st n ((2 : Int) ^ k)).targets_spec.getD j default =
      specDownAt n (make_maps n ((2 : Int) ^ k)).specular_map
        (make_maps n ((2 : Int) ^ k)).spec_pref_map (0 + j)
        ((2 : Int) ^ (k - 1 - j)) := by
  have key : (created_filter st n ((2 : Int) ^ k)).targets_spec =
      (List.range k).map (fun j => specDownAt n
        (make_maps n ((2 : Int) ^ k)).specular_map
        (make_maps n ((2 : Int) ^ k)).spec_pref_map (0 + j)
        ((2 : Int) ^ (k - 1 - j))) := by
    show (specular_chain_loop st n (make_maps n ((2 : Int) ^ k)).specular_map
      (make_maps n ((2 : Int) ^ k)).spec_pref_map 0 ((2 : Int) ^ k)).1 = _
    rw [specular_chain_loop_pow]
  rw [key, List.getD_eq_getElem?_getD, List.getElem?_map,
    List.getElem?_range hj]
  rfl

/-- Element extraction for the created specular filter chain on a
power-of-two size. -/
theorem created_targets_spec_filter_getD (st : Stage) (n : String) (k j : Nat)
    (hj : j < k) :
    (created_filter st n ((2 : Int) ^ k)).targets_spec_filter.getD j default =
      specFiltAt n (make_maps n ((2 : Int) ^ k)).specular_map
        (make_maps n ((2 : Int) ^ k)).spec_pref_map (0 + j)
        ((2 : Int) ^ (k - 1 - j)) := by
  have key : (created_filter st n ((2 : Int) ^ k)).targets_spec_filter =
      (List.range k).map (fun j => specFiltAt n
        (make_maps n ((2 : Int) ^ k)).specular_map
        (make_maps n ((2 : Int) ^ k)).spec_pref_map (0 + j)
        ((2 : Int) ^ (k - 1 - j))) := by
    show (specular_chain_loop st n (make_maps n ((2 : Int) ^ k)).specular_map
      (make_maps n ((2 : Int) ^ k)).spec_pref_map 0 ((2 : Int) ^ k)).2.1 = _
    rw [specular_chain_loop_pow]
  rw [key, List.getD_eq_getElem?_getD, List.getElem?_map,
    List.getElem?_range hj]
  rfl

/-- Both created specular chains on size `2 ^ k` have length `k`. -/
theorem created_targets_spec_length (st : Stage) (n : String) (k : Nat) :
    (created_filter st n ((2 : Int) ^ k)).targets_spec.length = k ∧
    (created_filter st n ((2 : Int) ^ k)).targets_spec_filter.length = k := by
  constructor
  · have key : (created_filter st n ((2 : Int) ^ k)).targets_spec =
        (List.range k).map (fun j => specDownAt n
          (make_maps n ((2 : Int) ^ k)).specular_map
          (make_maps n ((2 : Int) ^ k)).spec_pref_map (0 + j)
          ((2 : Int) ^ (k - 1 - j))) := by
      show (specular_chain_loop st n (make_maps n ((2 : Int) ^ k)).specular_map
        (make_maps n ((2 : Int) ^ k)).spec_pref_map 0 ((2 : Int) ^ k)).1 = _
      rw [specular_chain_loop_pow]
    rw [key, List.length_map, List.length_range]
  · have key : (created_filter st n ((2 : Int) ^ k)).targets_spec_filter =
        (List.range k).map (fun j => specFiltAt n
          (make_maps n ((2 : Int) ^ k)).specular_map
          (make_maps n ((2 : Int) ^ k)).spec_pref_map (0 + j)
          ((2 : Int) ^ (k - 1 - j))) := by
      show (specular_chain_loop st n (make_maps n ((2 : Int) ^ k)).specular_map
        (make_maps n ((2 : Int) ^ k)).spec_pref_map 0 ((2 : Int) ^ k)).2.1 = _
      rw [specular_chain_loop_pow]
    rw [key, List.length_map, List.length_range]

/-- Claim C1: for a power-of-two constructor size `2 ^ k` with `k ≥ 1`,
`create()` builds the specular chain as exactly `k` downsample/denoise
pairs — one per mip level — where the `i`-th pair (for `i = 1..k`) has
render size `(2^(k-i) * 6) × 2^(k-i)`, ending with a `6 × 1` pair; the
`_targets_spec` and `_targets_spec_filter` lists both have length `k`. -/
theorem spec_chain_one_pair_per_mip (st : Stage) (n : String) (k : Nat)
    (hk : 1 ≤ k) :
    (created_filter st n ((2 : Int) ^ k)).targets_spec.length = k ∧
    (created_filter st n ((2 : Int) ^ k)).targets_spec_filter.length = k ∧
    (∀ i, 1 ≤ i → i ≤ k →
      ((created_filter st n ((2 : Int) ^ k)).targets_spec.getD (i - 1)
          default).sizeX = (2 : Int) ^ (k - i) * 6 ∧
      ((created_filter st n ((2 : Int) ^ k)).targets_spec.getD (i - 1)
          default).sizeY = (2 : Int) ^ (k - i) ∧
      ((created_filter st n ((2 : Int) ^ k)).targets_spec_filter.getD (i - 1)
          default).sizeX = (2 : Int) ^ (k - i) * 6 ∧
      ((created_filter st n ((2 : Int) ^ k)).targets_spec_filter.getD (i - 1)
          default).sizeY = (2 : Int) ^ (k - i)) ∧
    ((created_filter st n ((2 : Int) ^ k)).targets_spec.getD (k - 1)
        default).sizeX = 6 ∧
    ((created_filter st n ((2 : Int) ^ k)).targets_spec.getD (k - 1)
        default).sizeY = 1 ∧
    ((created_filter st n ((2 : Int) ^ k)).targets_spec_filter.getD (k - 1)
        default).sizeX = 6 ∧
    ((created_filter st n ((2 : Int) ^ k)).targets_spec_filter.getD (k - 1)
        default).sizeY = 1 := by
  have hidx : ∀ i, 1 ≤ i → i ≤ k →
      ((created_filter st n ((2 : Int) ^ k)).targets_spec.getD (i - 1)
          default).sizeX = (2 : Int) ^ (k - i) * 6 ∧
      ((created_filter st n ((2 : Int) ^ k)).targets_spec.getD (i - 1)
          default).sizeY = (2 : Int) ^ (k - i) ∧
      ((created_filter st n ((2 : Int) ^ k)).targets_spec_filter.getD (i - 1)
          default).sizeX = (2 : Int) ^ (k - i) * 6 ∧
      ((created_filter st n ((2 : Int) ^ k)).targets_spec_filter.getD (i - 1)
          default).sizeY = (2 : Int) ^ (k - i) := by
    intro i h1 h2
    have he : k - 1 - (i - 1) = k - i := by omega
    rw [created_targets_spec_getD st n k (i - 1) (by omega),
      created_targets_spec_filter_getD st n k (i - 1) (by omega), he]
    exact ⟨rfl, rfl, rfl, rfl⟩
  have hlast := hidx k hk le_rfl
  have hpow : (2 : Int) ^ (k - k) = 1 := by
    rw [Nat.sub_self, pow_zero]
  refine ⟨(created_targets_spec_length st n k).1,
    (created_targets_spec_length st n k).2, hidx, ?_, ?_, ?_, ?_⟩
  · rw [hlast.1, hpow]; ring
  · rw [hlast.2.1, hpow]
  · rw [hlast.2.2.1, hpow]; ring
  · rw [hlast.2.2.2, hpow]

/-- Witness for claim C1 at stage `idStage`, name `"Cubemap"`, `k = 2`. -/
theorem spec_chain_one_pair_per_mip_witness :
    1 ≤ 2 ∧
    ((created_filter idStage "Cubemap" ((2 : Int) ^ 2)).targets_spec.getD
        (2 - 1) default).sizeX = (2 : Int) ^ (2 - 2) * 6 :=
  ⟨by decide,
    (((spec_chain_one_pair_per_mip idStage "Cubemap" 2 (by decide)).2.2.1)
      2 (by decide) (by decide)).1⟩

/-- Claim C3: on a power-of-two size `2 ^ k` the specular chain uses fixed
texture bindings driven by the mip counter: the downsample target at mip
`m` reads `SourceTex` from the specular map when `m = 0` and from the
specular-prefilter map otherwise, writes `DestMipmap` into the
specular-prefilter map at mip level `m + 1`, and carries `currentMip = m`;
the paired filter target carries `currentMip = m + 1`, reads `SourceTex`
from the specular-prefilter map and writes `DestMipmap` into the specular
map at mip level `m + 1`.  As `m` ranges over `0..k-1` this makes the
`currentMip` inputs run `0..k-1` on downsample targets and `1..k` on filter
targets. -/
theorem spec_chain_fixed_bindings (st : Stage) (n : String) (k m : Nat)
    (hm : m < k) :
    ((created_filter st n ((2 : Int) ^ k)).targets_spec.getD m
        default).inputs =
      [if m = 0 then
         .tex "SourceTex" (created_filter st n ((2 : Int) ^ k)).specular_map
       else
         .tex "SourceTex" (created_filter st n ((2 : Int) ^ k)).spec_pref_map,
       .texMip "DestMipmap" (created_filter st n ((2 : Int) ^ k)).spec_pref_map
         false true (-1) ((m : Int) + 1) 0,
       .scalar "currentMip" (m : Int)] ∧
    ((created_filter st n ((2 : Int) ^ k)).targets_spec_filter.getD m
        default).inputs =
      [.scalar "currentMip" ((m : Int) + 1),
       .tex "SourceTex" (created_filter st n ((2 : Int) ^ k)).spec_pref_map,
       .texMip "DestMipmap" (created_filter st n ((2 : Int) ^ k)).specular_map
         false true (-1) ((m : Int) + 1) 0] := by
  have hsm : (created_filter st n ((2 : Int) ^ k)).specular_map =
      (make_maps n ((2 : Int) ^ k)).specular_map := rfl
  have hsp : (created_filter st n ((2 : Int) ^ k)).spec_pref_map =
      (make_maps n ((2 : Int) ^ k)).spec_pref_map := rfl
  rw [created_targets_spec_getD st n k m hm,
    created_targets_spec_filter_getD st n k m hm, hsm, hsp]
  constructor <;> simp [specDownAt, specFiltAt]

/-- Witness for claim C3 at stage `idStage`, name `"Cubemap"`, `k = 2`,
`m = 1`. -/
theorem spec_chain_fixed_bindings_witness :
    1 < 2 ∧
    ((created_filter idStage "Cubemap" ((2 : Int) ^ 2)).targets_spec_filter.getD
        1 default).inputs =
      [.scalar "currentMip" (((1 : Nat) : Int) + 1),
       .tex "SourceTex" (created_filter idStage "Cubemap" ((2 : Int) ^ 2)).spec_pref_map,
       .texMip "DestMipmap"
         (created_filter idStage "Cubemap" ((2 : Int) ^ 2)).specular_map
         false true (-1) (((1 : Nat) : Int) + 1) 0] :=
  ⟨by decide, (spec_chain_fixed_bindings idStage "Cubemap" 2 1 (by decide)).2⟩

/-- Claim C5: `set_shaders()` attaches an externally loaded shader program
to every render target created by `create()`: each of the two diffuse
targets receives its own loaded shader, one loaded shader is shared by all
specular downsample targets and one by all specular filter targets, and no
target created by `create()` is dropped or left without a shader. -/
theorem set_shaders_attaches_all (st : Stage) (n : String) (size : Int) :
    (shaded_filter st n size).diffuse_target.map RenderTarget.shader =
      some (some (st.load_shader "Stages/IBLCubemapDiffuse.frag")) ∧
    (shaded_filter st n size).diff_filter_target.map RenderTarget.shader =
      some (some (st.load_shader "Stages/IBLCubemapDiffFilter.frag")) ∧
    (∀ t ∈ (shaded_filter st n size).targets_spec,
      t.shader = some (st.load_shader "Stages/IBLCubemapSpecular.frag")) ∧
    (∀ t ∈ (shaded_filter st n size).targets_spec_filter,
      t.shader = some (st.load_shader "Stages/IBLCubemapSpecularFilter.frag")) ∧
    (shaded_filter st n size).targets_spec.length =
      (created_filter st n size).targets_spec.length ∧
    (shaded_filter st n size).targets_spec_filter.length =
      (created_filter st n size).targets_spec_filter.length := by
  refine ⟨rfl, rfl, ?_, ?_, ?_, ?_⟩
  · intro t ht
    have hmem : t ∈ (created_filter st n size).targets_spec.map
        (fun u => u.set_shader
          (st.load_shader "Stages/IBLCubemapSpecular.frag")) := ht
    obtain ⟨u, _, rfl⟩ := List.mem_map.mp hmem
    rfl
  · intro t ht
    have hmem : t ∈ (created_filter st n size).targets_spec_filter.map
        (fun u => u.set_shader
          (st.load_shader "Stages/IBLCubemapSpecularFilter.frag")) := ht
    obtain ⟨u, _, rfl⟩ := List.mem_map.mp hmem
    rfl
  · show ((created_filter st n size).targets_spec.map
      (fun u => u.set_shader
        (st.load_shader "Stages/IBLCubemapSpecular.frag"))).length = _
    rw [List.length_map]
  · show ((created_filter st n size).targets_spec_filter.map
      (fun u => u.set_shader
        (st.load_shader "Stages/IBLCubemapSpecularFilter.frag"))).length = _
    rw [List.length_map]

/-- Witness for claim C5 at stage `idStage`, name `"Cubemap"`, size 2: the
single specular downsample target does carry the shared specular shader
after `set_shaders()`. -/
theorem set_shaders_attaches_all_witness :
    (RenderTarget.set_shader
        (specDownAt "Cubemap" (make_maps "Cubemap" 2).specular_map
          (make_maps "Cubemap" 2).spec_pref_map 0 1)
        (idStage.load_shader "Stages/IBLCubemapSpecular.frag")).shader =
      some (idStage.load_shader "Stages/IBLCubemapSpecular.frag") := by
  have hf : Int.fdiv (2 : Int) 2 = 1 := rfl
  have hlist : (created_filter idStage "Cubemap" 2).targets_spec =
      [specDownAt "Cubemap" (make_maps "Cubemap" 2).specular_map
        (make_maps "Cubemap" 2).spec_pref_map 0 1] := by
    show (specular_chain_loop idStage "Cubemap"
      (make_maps "Cubemap" 2).specular_map
      (make_maps "Cubemap" 2).spec_pref_map 0 2).1 = _
    rw [specular_chain_loop_step idStage "Cubemap"
      (make_maps "Cubemap" 2).specular_map
      (make_maps "Cubemap" 2).spec_pref_map 0 2 (by norm_num), hf,
      specular_chain_loop_stop idStage "Cubemap"
      (make_maps "Cubemap" 2).specular_map
      (make_maps "Cubemap" 2).spec_pref_map 1 1 (by norm_num)]
  have hmem : specDownAt "Cubemap" (make_maps "Cubemap" 2).specular_map
      (make_maps "Cubemap" 2).spec_pref_map 0 1 ∈
      (created_filter idStage "Cubemap" 2).targets_spec := by
    rw [hlist]
    exact List.mem_singleton_self _
  have hmem2 : RenderTarget.set_shader
      (specDownAt "Cubemap" (make_maps "Cubemap" 2).specular_map
        (make_maps "Cubemap" 2).spec_pref_map 0 1)
      (idStage.load_shader "Stages/IBLCubemapSpecular.frag") ∈
      (shaded_filter idStage "Cubemap" 2).targets_spec := by
    show _ ∈ (created_filter idStage "Cubemap" 2).targets_spec.map
      (fun u => RenderTarget.set_shader u
        (idStage.load_shader "Stages/IBLCubemapSpecular.frag"))
    exact List.mem_map_of_mem _ hmem
  exact (set_shaders_attaches_all idStage "Cubemap" 2).2.2.1 _ hmem2

/-- Closed form of the host-API events issued by `_make_diffuse_target`. -/
def diffuse_target_events (n : String) (size : Int) : List ApiEvent :=
  [.createTarget (n ++ "DiffuseIBL"),
   .setSize (n ++ "DiffuseIBL") (CubemapFilter.PREFILTER_CUBEMAP_SIZE * 6)
     CubemapFilter.PREFILTER_CUBEMAP_SIZE,
   .addColorTexture (n ++ "DiffuseIBL"),
   .prepareOffscreenBuffer (n ++ "DiffuseIBL"),
   .setInput (n ++ "DiffuseIBL")
     (.tex "SourceCubemap" (make_maps n size).specular_map),
   .setInput (n ++ "DiffuseIBL")
     (.tex "DestCubemap" (make_maps n size).prefilter_map),
   .setInput (n ++ "DiffuseIBL")
     (.scalar "cubeSize" CubemapFilter.PREFILTER_CUBEMAP_SIZE),
   .createTarget (n ++ "DiffPrefIBL"),
   .setSize (n ++ "DiffPrefIBL") (CubemapFilter.DIFFUSE_CUBEMAP_SIZE * 6)
     CubemapFilter.DIFFUSE_CUBEMAP_SIZE,
   .addColorTexture (n ++ "DiffPrefIBL"),
   .prepareOffscreenBuffer (n ++ "DiffPrefIBL"),
   .setInput (n ++ "DiffPrefIBL")
     (.tex "SourceCubemap" (make_maps n size).prefilter_map),
   .setInput (n ++ "DiffPrefIBL")
     (.tex "DestCubemap" (make_maps n size).diffuse_map),
   .setInput (n ++ "DiffPrefIBL")
     (.scalar "cubeSize" CubemapFilter.DIFFUSE_CUBEMAP_SIZE)]

/-- Decomposition of the full host-API trace of a run into the constructor
events, the specular-chain events, the diffuse-target events, and the
shader-loading/attachment events. -/
theorem full_api_trace_eq (st : Stage) (n : String) (size : Int) :
    full_api_trace st n size =
      (make_maps n size).events ++
      ((specular_chain_loop st n (make_maps n size).specular_map
          (make_maps n size).spec_pref_map 0 size).2.2 ++
        diffuse_target_events n size) ++
      ([ApiEvent.loadShader "Stages/IBLCubemapDiffuse.frag",
        ApiEvent.setShader (n ++ "DiffuseIBL")
          (st.load_shader "Stages/IBLCubemapDiffuse.frag"),
        ApiEvent.loadShader "Stages/IBLCubemapDiffFilter.frag",
        ApiEvent.setShader (n ++ "DiffPrefIBL")
          (st.load_shader "Stages/IBLCubemapDiffFilter.frag"),
        ApiEvent.loadShader "Stages/IBLCubemapSpecular.frag"] ++
       (specular_chain_loop st n (make_maps n size).specular_map
          (make_maps n size).spec_pref_map 0 size).1.map
         (fun t => ApiEvent.setShader t.rtName
           (st.load_shader "Stages/IBLCubemapSpecular.frag")) ++
       [ApiEvent.loadShader "Stages/IBLCubemapSpecularFilter.frag"] ++
       (specular_chain_loop st n (make_maps n size).specular_map
          (make_maps n size).spec_pref_map 0 size).2.1.map
         (fun t => ApiEvent.setShader t.rtName
           (st.load_shader "Stages/IBLCubemapSpecularFilter.frag"))) :=
  rfl

/-- Claim C7: the module is deterministic.  Two runs of
`__init__`/`create()`/`set_shaders()` with the same name and size and the
same host-engine collaborator behaviour (the same shader loader) issue the
identical sequence of host-API calls — image creations, target creations,
target sizes, shader-input bindings and shader attachments — with no
dependence on any other input. -/
theorem api_trace_deterministic (st1 st2 : Stage) (n : String) (size : Int)
    (h : st1.load_shader = st2.load_shader) :
    full_api_trace st1 n size = full_api_trace st2 n size := by
  have hloop := specular_chain_loop_stage_eq st1 st2 n
    (make_maps n size).specular_map (make_maps n size).spec_pref_map
    size.toNat 0 size le_rfl
  rw [full_api_trace_eq st1 n size, full_api_trace_eq st2 n size, hloop, h]

/-- Witness for claim C7: two stages with definitionally different but
extensionally equal shader loaders produce the same trace. -/
theorem api_trace_deterministic_witness :
    full_api_trace ⟨fun p => p⟩ "Cubemap" 16 =
      full_api_trace ⟨fun p => "" ++ p⟩ "Cubemap" 16 :=
  api_trace_deterministic ⟨fun p => p⟩ ⟨fun p => "" ++ p⟩ "Cubemap" 16
    (funext fun _ => rfl)
